import Mathlib

/-!
Verification of the rebalancing trading bot (src/trading_bot.py) against its
natural-language specification.

The Python source is shallowly embedded: Python floats are modelled as exact
rationals (ℚ), Python ints as ℤ/ℕ, dictionaries as structures, and every
network interaction as a value read from an explicit environment record while
the call itself is appended to an observable trace (`NetCall`).  Rows written
to the CSV trade ledger are modelled as the list of `log_trade` invocations
(`TradeRecord`); the CSV file itself is an external collaborator and out of
scope.  Wall-clock time in the GTC monitoring loop is abstracted by the list
of poll responses observed before the timeout fires, and the unbounded
recursive resubmission of the source is given an explicit fuel parameter
(the source has no cap; running out of fuel is a model artifact that never
occurs in any theorem below, which always supply enough fuel).
-/

namespace TradingBot

/-- Python builtin abs on a float, modelled on ℚ. -/
def pyAbs (q : ℚ) : ℚ := if q < 0 then -q else q

/-- Python builtin int() on a float, modelled on ℚ: truncation toward zero. -/
def pyInt (q : ℚ) : ℤ := if 0 ≤ q then q.floor else -((-q).floor)

/-! ## Market quote parsing (KuCoinFuturesClient.get_best_bid_ask, lines 353-405) -/

/-- Parsed fields of a successfully decoded ticker payload
(code 200000): bestBidPrice, bestAskPrice, price, ts. -/
structure TickerData where
  bestBidPrice : ℚ
  bestAskPrice : ℚ
  price : ℚ
  ts : ℤ
deriving DecidableEq

/-- The dictionary returned by get_best_bid_ask. -/
structure Quote where
  best_bid : ℚ
  best_ask : ℚ
  last_price : ℚ
  timestamp : ℤ
deriving DecidableEq

/-- Embedding of KuCoinFuturesClient.get_best_bid_ask (lines 375-395), the
successful-parse path: if either best bid or best ask is zero and the last
price is positive, each non-positive side is replaced by the last price. -/
def get_best_bid_ask (t : TickerData) : Quote :=
  let best_bid := t.bestBidPrice
  let best_ask := t.bestAskPrice
  if best_bid = 0 ∨ best_ask = 0 then
    let last_price := t.price
    if 0 < last_price then
      { best_bid := if 0 < best_bid then best_bid else last_price
        best_ask := if 0 < best_ask then best_ask else last_price
        last_price := t.price
        timestamp := t.ts }
    else
      { best_bid := best_bid, best_ask := best_ask, last_price := t.price, timestamp := t.ts }
  else
    { best_bid := best_bid, best_ask := best_ask, last_price := t.price, timestamp := t.ts }

/-! ## Portfolio calculator (PortfolioCalculator.calculate_metrics, lines 1230-1357) -/

/-- One raw position dictionary as returned by the positions endpoint.
markPrice is optional because the source reads it with default btc_price. -/
structure RawPosition where
  symbol : String
  currentQty : ℚ
  isInverse : Bool
  markPrice : Option ℚ
  avgEntryPrice : ℚ
  unrealisedPnl : ℚ
  isOpen : Bool
deriving DecidableEq

/-- The futures account dictionary; the calculator only reads accountEquity. -/
structure FuturesAccount where
  accountEquity : ℚ
deriving DecidableEq

/-- One entry of the position_details list built inside calculate_metrics. -/
structure PositionDetail where
  symbol : String
  qty : ℚ
  usd_value : ℚ
  mark_price : ℚ
  avg_entry_price : ℚ
  unrealised_pnl : ℚ
deriving DecidableEq

/-- The loop of calculate_metrics (lines 1262-1281): keep inverse short
positions, each contributing abs(currentQty) dollars of short exposure. -/
def shortDetails (btc_price : ℚ) (positions : List RawPosition) : List PositionDetail :=
  positions.filterMap fun pos =>
    if pos.isInverse = true ∧ pos.currentQty < 0 then
      some { symbol := pos.symbol
             qty := pos.currentQty
             usd_value := pyAbs pos.currentQty
             mark_price := pos.markPrice.getD btc_price
             avg_entry_price := pos.avgEntryPrice
             unrealised_pnl := pos.unrealisedPnl }
    else none

/-- total_short_usd accumulated by the loop in calculate_metrics. -/
def total_short_usd (btc_price : ℚ) (positions : List RawPosition) : ℚ :=
  ((shortDetails btc_price positions).map fun d => d.usd_value).sum

/-- The metrics dictionary returned by calculate_metrics. -/
structure PortfolioMetrics where
  cold_storage_btc : ℚ
  cold_storage_usd : ℚ
  futures_btc : ℚ
  futures_btc_usd : ℚ
  total_btc : ℚ
  total_portfolio_usd : ℚ
  btc_price : ℚ
  gross_btc_exposure_usd : ℚ
  net_btc_exposure_usd : ℚ
  usd_exposure : ℚ
  current_short_usd : ℚ
  current_btc_allocation : ℚ
  current_usd_allocation : ℚ
  target_btc_allocation : ℚ
  target_usd_allocation : ℚ
  allocation_deviation : ℚ
  target_btc_usd : ℚ
  target_usd_exposure : ℚ
  required_usd_adjustment : ℚ
  short_position_adjustment : ℚ
  contracts_to_adjust : ℤ
  needs_rebalancing : Bool
  rebalance_threshold : ℚ
  position_details : List PositionDetail
  position_count : ℕ
deriving DecidableEq

/-- Embedding of PortfolioCalculator.calculate_metrics (lines 1233-1357). -/
def calculate_metrics (cold_storage_btc : ℚ) (futures_account : FuturesAccount)
    (positions : List RawPosition) (btc_price target_allocation rebalance_threshold : ℚ) :
    PortfolioMetrics :=
  let futures_btc := futures_account.accountEquity
  let details := shortDetails btc_price positions
  let short_usd := total_short_usd btc_price positions
  let total_btc := cold_storage_btc + futures_btc
  let cold_storage_usd := cold_storage_btc * btc_price
  let futures_btc_usd := futures_btc * btc_price
  let total_portfolio_usd := total_btc * btc_price
  let gross_btc_exposure_usd := cold_storage_usd + futures_btc_usd
  let net_btc_exposure_usd := gross_btc_exposure_usd - short_usd
  let usd_exposure := short_usd
  let current_btc_allocation :=
    if 0 < total_portfolio_usd then net_btc_exposure_usd / total_portfolio_usd * 100 else 0
  let current_usd_allocation :=
    if 0 < total_portfolio_usd then usd_exposure / total_portfolio_usd * 100 else 0
  let target_btc_usd := total_portfolio_usd * (target_allocation / 100)
  let target_usd_exposure := total_portfolio_usd * ((100 - target_allocation) / 100)
  let allocation_deviation := current_btc_allocation - target_allocation
  let required_usd_adjustment := allocation_deviation / 100 * total_portfolio_usd
  let short_position_adjustment := target_usd_exposure - short_usd
  let contracts_to_adjust := pyInt (pyAbs short_position_adjustment)
  let needs_rebalancing := decide (rebalance_threshold < pyAbs allocation_deviation)
  { cold_storage_btc := cold_storage_btc
    cold_storage_usd := cold_storage_usd
    futures_btc := futures_btc
    futures_btc_usd := futures_btc_usd
    total_btc := total_btc
    total_portfolio_usd := total_portfolio_usd
    btc_price := btc_price
    gross_btc_exposure_usd := gross_btc_exposure_usd
    net_btc_exposure_usd := net_btc_exposure_usd
    usd_exposure := usd_exposure
    current_short_usd := short_usd
    current_btc_allocation := current_btc_allocation
    current_usd_allocation := current_usd_allocation
    target_btc_allocation := target_allocation
    target_usd_allocation := 100 - target_allocation
    allocation_deviation := allocation_deviation
    target_btc_usd := target_btc_usd
    target_usd_exposure := target_usd_exposure
    required_usd_adjustment := required_usd_adjustment
    short_position_adjustment := short_position_adjustment
    contracts_to_adjust := contracts_to_adjust
    needs_rebalancing := needs_rebalancing
    rebalance_threshold := rebalance_threshold
    position_details := details
    position_count := details.length }

/-! ## Endpoint-shape fallback (get_futures_account lines 407-476, get_positions lines 478-548)

Each HTTP attempt against one endpoint path is summarised by the branch of the
source it lands in: an HTTP 400 status, any other HTTP/transport error caught
by the except clauses, an API-level non-success code carrying a message, or a
successful payload. -/

/-- Outcome of one HTTP attempt, by the source branch handling it. -/
inductive VariantResp (A : Type) where
  | http400
  | httpError (msg : String)
  | transportError (msg : String)
  | apiError (msg : String)
  | ok (data : A)
deriving DecidableEq

/-- The last_error message the source records for a failing attempt: the
HTTP-400 branch builds a message naming the attempt, every other failing
branch preserves the upstream message verbatim. -/
def variantErrMsg {A : Type} (attempt_name : String) : VariantResp A → Option String
  | .http400 => some ("400 Bad Request with " ++ attempt_name)
  | .httpError m => some m
  | .transportError m => some m
  | .apiError m => some m
  | .ok _ => none

/-- Whether an attempt succeeded (code 200000 with parsed payload). -/
def VariantResp.isOk {A : Type} : VariantResp A → Bool
  | .ok _ => true
  | _ => false

/-- The for-loop over the attempts list shared by get_futures_account and
get_positions: return the first successful payload, otherwise carry the last
recorded error message to the final failure report. -/
def try_attempts {A : Type} (resp : String → VariantResp A) :
    List (String × String) → Option String → Option A × Option String
  | [], last_error => (none, last_error)
  | (attempt_name, endpoint_path) :: rest, last_error =>
    match resp endpoint_path with
    | .ok d => (some d, last_error)
    | r => try_attempts resp rest (variantErrMsg attempt_name r)

/-- The ordered attempts list of get_futures_account (lines 419-422). -/
def account_attempts (currency : String) : List (String × String) :=
  [("without parameters", "/api/v1/account-overview"),
   ("with currency=" ++ currency, "/api/v1/account-overview?currency=" ++ currency)]

/-- Embedding of KuCoinFuturesClient.get_futures_account (lines 407-476).
The first component is the returned account payload (none for the empty dict
returned after all attempts fail), the second the last_error message reported
on failure. -/
def get_futures_account (resp : String → VariantResp FuturesAccount) (currency : String) :
    Option FuturesAccount × Option String :=
  try_attempts resp (account_attempts currency) none

/-- The ordered attempts list of get_positions (lines 489-492). -/
def position_attempts (currency : String) : List (String × String) :=
  [("without parameters", "/api/v1/positions"),
   ("with currency=" ++ currency, "/api/v1/positions?currency=" ++ currency)]

/-- Embedding of KuCoinFuturesClient.get_positions (lines 478-548): same
fallback loop, and a successful payload is filtered to open positions.  The
first component is none for the empty list returned after total failure. -/
def get_positions (resp : String → VariantResp (List RawPosition)) (currency : String) :
    Option (List RawPosition) × Option String :=
  match try_attempts resp (position_attempts currency) none with
  | (some ps, e) => (some (ps.filter fun p => p.isOpen), e)
  | (none, e) => (none, e)

/-! ## Order executor (OrderExecutor, lines 726-1227)

Each network interaction of the executor is recorded in a trace of NetCall
events while its response is read from an Env record.  CSV ledger rows are
the TradeRecord values passed to TradeLogger.log_trade.  The GTC monitoring
loop abstracts wall-clock time by the list of poll responses the loop sees
before the timeout fires; the timeout iteration then performs one more
status fetch.  The unbounded recursion place_order -> monitor_gtc_order ->
place_order is driven by an explicit fuel counter; exhausted fuel (a model
artifact, the source has no cap) yields a distinguished failure value. -/

/-- Observable network calls made by the executor. -/
inductive NetCall where
  | fetchPositionMode
  | setPositionMode
  | fetchTicker
  | submitOrder (size : ℕ)
  | fetchOrderDetails
  | cancelOrder
deriving DecidableEq

/-- One row passed to TradeLogger.log_trade (lines 174-205). -/
structure TradeRecord where
  action : String
  symbol : String
  contracts : ℤ
  limit_price : Option ℚ
  order_id : Option String
  slippage : Option ℚ
  status : String
  error : Option String
deriving DecidableEq

/-- The result dictionary returned by place_order / monitor_gtc_order;
absent keys are modelled as none/false. -/
structure OrderResult where
  success : Bool
  error : Option String
  order_id : Option String
  client_oid : Option String
  order_type : Option String
  time_in_force : Option String
  dry_run : Bool
  partially_filled : Bool
  filled_size : Option ℚ
deriving DecidableEq

/-- A failure dictionary: only success=False and an error message. -/
def failResult (msg : String) : OrderResult :=
  { success := false, error := some msg, order_id := none, client_oid := none,
    order_type := none, time_in_force := none, dry_run := false,
    partially_filled := false, filled_size := none }

/-- Configuration of OrderExecutor captured at construction (lines 729-761). -/
structure ExecutorConfig where
  dry_run : Bool
  max_order_usd : ℚ
  min_order_usd : ℚ
  margin_mode : String
  position_mode : String
  auto_set_position_mode : Bool
  order_type : String
  time_in_force : String
  slippage_pct : ℚ
  gtc_timeout_seconds : ℕ

/-- Order-detail payload read by the monitor: dealSize, size (absent key
falls back to the contracts argument), status. -/
structure OrderDetails where
  dealSize : ℚ
  size : Option ℚ
  status : String
deriving DecidableEq

/-- Response to the order-creation POST. -/
inductive SubmitResp where
  | ok (orderId : String)
  | apiError (msg : String)
  | requestError (msg : String)
deriving DecidableEq

/-- The environment supplying every remote response the executor reads,
indexed where needed by the attempt counter that also mints identifiers. -/
structure Env where
  position_mode_resp : String
  set_mode_ok : Bool
  ticker : Option TickerData
  submit : ℕ → SubmitResp
  details_at_timeout : ℕ → Option OrderDetails
  poll_ticks : ℕ → List (Option OrderDetails)
  cancel_ok : Bool

/-- Embedding of OrderExecutor.verify_position_mode (lines 769-811):
returns the verification verdict and the network calls made. -/
def verify_position_mode (cfg : ExecutorConfig) (env : Env) : Bool × List NetCall :=
  let current_mode := env.position_mode_resp
  if current_mode = "" then (false, [NetCall.fetchPositionMode])
  else if current_mode = cfg.position_mode then (true, [NetCall.fetchPositionMode])
  else if cfg.auto_set_position_mode then
    (env.set_mode_ok, [NetCall.fetchPositionMode, NetCall.setPositionMode])
  else (false, [NetCall.fetchPositionMode])

/-- Embedding of OrderExecutor.calculate_limit_price (lines 813-859); side is
already lower-case as at both call sites.  Returns 0 on any failure. -/
def calculate_limit_price (cfg : ExecutorConfig) (env : Env) (side : String) :
    ℚ × List NetCall :=
  match env.ticker with
  | none => (0, [NetCall.fetchTicker])
  | some t =>
    let q := get_best_bid_ask t
    (if q.best_bid = 0 ∨ q.best_ask = 0 then 0
     else if side = "buy" then q.best_ask * (1 + cfg.slippage_pct / 100)
     else q.best_bid * (1 - cfg.slippage_pct / 100),
     [NetCall.fetchTicker])

/-- Python truthiness of the optional action string. -/
def truthyStr : Option String → Bool
  | none => false
  | some s => decide (s ≠ "")

/-- Python truthiness of the optional limit price (0.0 is falsy). -/
def truthyPrice : Option ℚ → Bool
  | none => false
  | some p => decide (p ≠ 0)

/-- The action string as written to the CSV: spaces become underscores
(action.replace in the source, modelled characterwise). -/
def csvAction (a : Option String) : String :=
  String.mk ((a.getD "").data.map fun c => if c = ' ' then '_' else c)

/-- Client order identifier minted for attempt n (uuid4 in the source,
modelled as a counter-derived fresh string). -/
def clientOid (n : ℕ) : String := "uuid-" ++ toString n

/-- Plain decimal rendering of a rational for interpolated log strings. -/
def ratStr (q : ℚ) : String := toString q.num ++ "/" ++ toString q.den

/-- Helper building a TradeRecord row. -/
def mkRecord (action symbol : String) (contracts : ℤ) (limit_price : Option ℚ)
    (order_id : Option String) (slippage : Option ℚ) (status : String)
    (error : Option String) : TradeRecord :=
  { action := action, symbol := symbol, contracts := contracts,
    limit_price := limit_price, order_id := order_id, slippage := slippage,
    status := status, error := error }

/-- Combined outcome type of one pass of the monitoring loop: either a
terminal result with its ledger rows and calls, or a request to resubmit the
unfilled remainder (the recursive place_order call at line 930). -/
inductive MonitorOutcome where
  | terminal (r : OrderResult) (records : List TradeRecord) (calls : List NetCall)
  | resubmit (unfilled : ℤ) (records : List TradeRecord) (calls : List NetCall)

/-- Embedding of the timeout branch of monitor_gtc_order (lines 891-965).
The cancel_order result (cancel_ok) is received as an argument; the source
binds it as cancel_success and only logs it.  Note the source quirk kept
here faithfully: a fully-filled order discovered at timeout falls through to
the TIMEOUT bookkeeping branch. -/
def monitor_timeout_step (cfg : ExecutorConfig) (env : Env) (oid : ℕ)
    (order_id symbol : String) (contracts : ℤ)
    (action : Option String) (limit_price : Option ℚ) (cancel_ok : Bool) :
    MonitorOutcome :=
  match env.details_at_timeout oid with
  | some d =>
    let filled_size := d.dealSize
    let total_size := d.size.getD (contracts : ℚ)
    if filled_size < total_size then
      let _cancel_success := cancel_ok
      let unfilled := pyInt (total_size - filled_size)
      let cancel_records :=
        if filled_size = 0 ∧ truthyStr action = true ∧ truthyPrice limit_price = true then
          [mkRecord (csvAction action) symbol (contracts.natAbs : ℤ) limit_price
            (some order_id) (some cfg.slippage_pct) "CANCELLED" (some "GTC timeout - no fill")]
        else []
      if 0 < unfilled then
        MonitorOutcome.resubmit unfilled cancel_records
          [NetCall.fetchOrderDetails, NetCall.cancelOrder]
      else
        MonitorOutcome.terminal
          { success := true, error := none, order_id := some order_id,
            client_oid := none, order_type := none, time_in_force := none,
            dry_run := false, partially_filled := true, filled_size := some filled_size }
          (cancel_records ++
            (if truthyStr action = true ∧ truthyPrice limit_price = true then
              [mkRecord (csvAction action) symbol (pyInt filled_size) limit_price
                (some order_id) (some cfg.slippage_pct) "PARTIAL"
                (some ("Filled " ++ ratStr filled_size ++ "/" ++ ratStr total_size))]
            else []))
          [NetCall.fetchOrderDetails, NetCall.cancelOrder]
    else
      MonitorOutcome.terminal (failResult "GTC order timeout")
        (if truthyStr action = true ∧ truthyPrice limit_price = true then
          [mkRecord (csvAction action) symbol (contracts.natAbs : ℤ) limit_price
            (some order_id) (some cfg.slippage_pct) "TIMEOUT"
            (some "GTC timeout - could not get order status")]
        else [])
        [NetCall.fetchOrderDetails]
  | none =>
    MonitorOutcome.terminal (failResult "GTC order timeout")
      (if truthyStr action = true ∧ truthyPrice limit_price = true then
        [mkRecord (csvAction action) symbol (contracts.natAbs : ℤ) limit_price
          (some order_id) (some cfg.slippage_pct) "TIMEOUT"
          (some "GTC timeout - could not get order status")]
      else [])
      [NetCall.fetchOrderDetails]

/-- The pre-timeout polling iterations of monitor_gtc_order (lines 887-998,
the branch taken while elapsed < gtc_timeout_seconds): each iteration fetches
order details and terminates with a FILLED result when status is done. -/
def monitor_poll (cfg : ExecutorConfig) (order_id symbol : String) (contracts : ℤ)
    (action : Option String) (limit_price : Option ℚ) :
    List (Option OrderDetails) → Option (OrderResult × List TradeRecord) × List NetCall
  | [] => (none, [])
  | tick :: rest =>
    match tick with
    | some d =>
      if d.status = "done" then
        (some ({ success := true, error := none, order_id := some order_id,
                 client_oid := none, order_type := none, time_in_force := none,
                 dry_run := false, partially_filled := false,
                 filled_size := some d.dealSize },
               if truthyStr action = true ∧ truthyPrice limit_price = true then
                 [mkRecord (csvAction action) symbol (contracts.natAbs : ℤ) limit_price
                   (some order_id) (some cfg.slippage_pct) "FILLED" none]
               else []),
         [NetCall.fetchOrderDetails])
      else
        let r := monitor_poll cfg order_id symbol contracts action limit_price rest
        (r.1, NetCall.fetchOrderDetails :: r.2)
    | none =>
      let r := monitor_poll cfg order_id symbol contracts action limit_price rest
      (r.1, NetCall.fetchOrderDetails :: r.2)

/-- One full pass of the monitoring loop of monitor_gtc_order: the polling
phase followed, if the timeout fires, by the timeout branch. -/
def monitor_core (cfg : ExecutorConfig) (env : Env) (oid : ℕ)
    (order_id symbol : String) (contracts : ℤ)
    (action : Option String) (limit_price : Option ℚ) : MonitorOutcome :=
  match monitor_poll cfg order_id symbol contracts action limit_price (env.poll_ticks oid) with
  | (some (r, recs), pcalls) => MonitorOutcome.terminal r recs pcalls
  | (none, pcalls) =>
    match monitor_timeout_step cfg env oid order_id symbol contracts action limit_price
        env.cancel_ok with
    | .terminal r recs tcalls => .terminal r recs (pcalls ++ tcalls)
    | .resubmit unfilled recs tcalls => .resubmit unfilled recs (pcalls ++ tcalls)

/-- Failure value standing for exhausted model fuel on the uncapped recursive
resubmission (a model artifact; the source recurses without bound). -/
def fuelExhausted : OrderResult := failResult "model fuel exhausted"

/-- The body of OrderExecutor.place_order (lines 1000-1150), parameterised by
the continuation used for the recursive monitor resubmission. -/
def place_order_body (cfg : ExecutorConfig) (env : Env) (oid : ℕ)
    (symbol side : String) (contracts : ℤ) (leverage : ℤ) (reduce_only : Bool)
    (resubmitK : ℤ → OrderResult × List TradeRecord × List NetCall) :
    OrderResult × List TradeRecord × List NetCall :=
  if cfg.max_order_usd < (contracts.natAbs : ℚ) then
    (failResult "Order size exceeds maximum", [], [])
  else if (contracts.natAbs : ℚ) < cfg.min_order_usd then
    (failResult "Order size below minimum", [], [])
  else
    let verify : Bool × List NetCall :=
      if cfg.dry_run then (true, []) else verify_position_mode cfg env
    if verify.1 = false then (failResult "Position mode mismatch", [], verify.2)
    else
      let client_oid := clientOid oid
      let tif :=
        if cfg.order_type = "limit" ∧ cfg.slippage_pct < 0 then "GTC" else cfg.time_in_force
      let pricing :=
        if cfg.order_type = "limit" then calculate_limit_price cfg env side else (0, [])
      let limit_price : Option ℚ :=
        if cfg.order_type = "limit" then some pricing.1 else none
      let order_type :=
        if cfg.order_type = "limit" ∧ pricing.1 = 0 then "market" else cfg.order_type
      let preCalls := verify.2 ++ pricing.2
      if cfg.dry_run then
        ({ success := true, error := none,
           order_id := some ("DRY_RUN_" ++ client_oid.take 8),
           client_oid := some client_oid, order_type := some order_type,
           time_in_force := none, dry_run := true, partially_filled := false,
           filled_size := none },
         [], preCalls)
      else
        let calls := preCalls ++ [NetCall.submitOrder contracts.natAbs]
        match env.submit oid with
        | SubmitResp.ok order_id =>
          let action :=
            if side = "sell" ∧ reduce_only = false then "OPEN SHORT" else "CLOSE SHORT"
          if order_type = "limit" ∧ tif = "GTC" then
            match monitor_core cfg env oid order_id symbol contracts
                (some action) limit_price with
            | .terminal r recs mcalls => (r, recs, calls ++ mcalls)
            | .resubmit unfilled recs mcalls =>
              let p := resubmitK unfilled
              (p.1, recs ++ p.2.1, calls ++ mcalls ++ p.2.2)
          else
            ({ success := true, error := none, order_id := some order_id,
               client_oid := some client_oid, order_type := some order_type,
               time_in_force := if order_type = "limit" then some tif else none,
               dry_run := false, partially_filled := false, filled_size := none },
             [mkRecord (csvAction (some action)) symbol (contracts.natAbs : ℤ)
               (if order_type = "limit" then limit_price else none) (some order_id)
               (if order_type = "limit" then some cfg.slippage_pct else none)
               "FILLED" none],
             calls)
        | SubmitResp.apiError msg => (failResult msg, [], calls)
        | SubmitResp.requestError msg => (failResult msg, [], calls)

/-- Embedding of OrderExecutor.place_order with the recursive GTC
resubmission driven by fuel; attempt oid resubmits as attempt oid+1 with a
fresh identifier and fresh pricing. -/
def place_order : ℕ → ExecutorConfig → Env → ℕ → String → String → ℤ → ℤ → Bool →
    OrderResult × List TradeRecord × List NetCall
  | 0, cfg, env, oid, symbol, side, contracts, leverage, reduce_only =>
    place_order_body cfg env oid symbol side contracts leverage reduce_only
      (fun _ => (fuelExhausted, [], []))
  | n+1, cfg, env, oid, symbol, side, contracts, leverage, reduce_only =>
    place_order_body cfg env oid symbol side contracts leverage reduce_only
      (fun unfilled =>
        place_order n cfg env (oid+1) symbol side unfilled leverage reduce_only)

/-- Embedding of OrderExecutor.monitor_gtc_order (lines 861-998) for the
order of attempt oid: run the monitoring loop; on a timeout with a positive
unfilled remainder, resubmit through place_order as attempt oid+1. -/
def monitor_gtc_order (fuel : ℕ) (cfg : ExecutorConfig) (env : Env) (oid : ℕ)
    (order_id symbol side : String) (contracts leverage : ℤ) (reduce_only : Bool)
    (action : Option String) (limit_price : Option ℚ) :
    OrderResult × List TradeRecord × List NetCall :=
  match monitor_core cfg env oid order_id symbol contracts action limit_price with
  | .terminal r recs mcalls => (r, recs, mcalls)
  | .resubmit unfilled recs mcalls =>
    match fuel with
    | 0 => (fuelExhausted, recs, mcalls)
    | n+1 =>
      let p := place_order n cfg env (oid+1) symbol side unfilled leverage reduce_only
      (p.1, recs ++ p.2.1, mcalls ++ p.2.2)

/-! ## Concrete fixtures used by counterexamples and witnesses -/

/-- A live (non-dry-run) executor configured for market orders, with the
default ceilings of the source (max 10000, min 100 USD). -/
def cfgLiveMkt : ExecutorConfig :=
  { dry_run := false, max_order_usd := 10000, min_order_usd := 100,
    margin_mode := "ISOLATED", position_mode := "ONE_WAY",
    auto_set_position_mode := false, order_type := "market",
    time_in_force := "IOC", slippage_pct := 1/10, gtc_timeout_seconds := 300 }

/-- A dry-run executor configured for market orders, same ceilings. -/
def cfgDryMkt : ExecutorConfig :=
  { dry_run := true, max_order_usd := 10000, min_order_usd := 100,
    margin_mode := "ISOLATED", position_mode := "ONE_WAY",
    auto_set_position_mode := false, order_type := "market",
    time_in_force := "IOC", slippage_pct := 1/10, gtc_timeout_seconds := 300 }

/-- Remote responses for a GTC order found completely unfilled (0 of 1000)
at the timeout fetch; a resubmitted order is accepted as ORD2. -/
def envZeroFill : Env :=
  { position_mode_resp := "ONE_WAY", set_mode_ok := true, ticker := none,
    submit := fun _ => SubmitResp.ok "ORD2",
    details_at_timeout := fun _ => some { dealSize := 0, size := some 1000, status := "open" },
    poll_ticks := fun _ => [], cancel_ok := true }

/-- Remote responses for a GTC order found partially filled (400 of 1000)
at the timeout fetch; a resubmitted order is accepted as ORD2. -/
def envPartialFill : Env :=
  { position_mode_resp := "ONE_WAY", set_mode_ok := true, ticker := none,
    submit := fun _ => SubmitResp.ok "ORD2",
    details_at_timeout := fun _ => some { dealSize := 400, size := some 1000, status := "open" },
    poll_ticks := fun _ => [], cancel_ok := true }

/-- Remote responses where the order-creation POST is rejected by the API. -/
def envSubmitErr : Env :=
  { position_mode_resp := "ONE_WAY", set_mode_ok := true, ticker := none,
    submit := fun _ => SubmitResp.apiError "Balance insufficient",
    details_at_timeout := fun _ => none,
    poll_ticks := fun _ => [], cancel_ok := true }

/-- Account-overview endpoint failing on both path shapes with API errors. -/
def raFail : String → VariantResp FuturesAccount := fun path =>
  if path = "/api/v1/account-overview" then VariantResp.apiError "account err one"
  else VariantResp.apiError "account err two"

/-- Positions endpoint failing with HTTP 400 on the first shape and an API
error on the second. -/
def rpFail : String → VariantResp (List RawPosition) := fun path =>
  if path = "/api/v1/positions" then VariantResp.http400
  else VariantResp.apiError "positions err two"

/-! ## Shared helper lemmas -/

theorem pyAbs_eq_abs (q : ℚ) : pyAbs q = |q| := by
  unfold pyAbs
  rcases lt_or_le q 0 with h | h
  · rw [if_pos h, abs_of_neg h]
  · rw [if_neg (not_lt.mpr h), abs_of_nonneg h]

theorem pyInt_pos_of_one_le {q : ℚ} (h : 1 ≤ q) : 0 < pyInt q := by
  unfold pyInt
  rw [if_pos (le_trans zero_le_one h)]
  have h1 : (1:ℤ) ≤ Rat.floor q := Rat.le_floor.mpr (by exact_mod_cast h)
  omega

/-- Timeout behaviour of the monitor on an under-filled order whose truncated
remainder is positive: cancel, optionally log CANCELLED (only for a zero
fill), and resubmit the remainder as the next attempt through place_order. -/
theorem monitor_timeout_resubmit (n : ℕ) (cfg : ExecutorConfig) (env : Env) (oid : ℕ)
    (order_id symbol side : String) (contracts leverage : ℤ) (ro : Bool)
    (a : Option String) (p : Option ℚ) (f t : ℚ) (st : String)
    (hpoll : env.poll_ticks oid = [])
    (hdet : env.details_at_timeout oid = some { dealSize := f, size := some t, status := st })
    (hlt : f < t) (hpos : 0 < pyInt (t - f)) :
    monitor_gtc_order (n+1) cfg env oid order_id symbol side contracts leverage ro a p =
      ((place_order n cfg env (oid+1) symbol side (pyInt (t - f)) leverage ro).1,
       (if f = 0 ∧ truthyStr a = true ∧ truthyPrice p = true then
          [mkRecord (csvAction a) symbol (contracts.natAbs : ℤ) p (some order_id)
            (some cfg.slippage_pct) "CANCELLED" (some "GTC timeout - no fill")]
        else []) ++ (place_order n cfg env (oid+1) symbol side (pyInt (t - f)) leverage ro).2.1,
       [NetCall.fetchOrderDetails, NetCall.cancelOrder] ++
         (place_order n cfg env (oid+1) symbol side (pyInt (t - f)) leverage ro).2.2) := by
  unfold monitor_gtc_order monitor_core
  rw [hpoll]
  unfold monitor_poll
  unfold monitor_timeout_step
  rw [hdet]
  simp only [Option.getD, if_pos hlt, if_pos hpos, List.nil_append]

/-- Every path of calculate_limit_price performs exactly one ticker fetch. -/
theorem calculate_limit_price_calls (cfg : ExecutorConfig) (env : Env) (side : String) :
    (calculate_limit_price cfg env side).2 = [NetCall.fetchTicker] := by
  unfold calculate_limit_price
  cases env.ticker <;> rfl

/-- The size safety gate of place_order_body rejects before doing anything. -/
theorem place_order_body_gate (cfg : ExecutorConfig) (env : Env) (oid : ℕ)
    (symbol side : String) (contracts leverage : ℤ) (ro : Bool)
    (k : ℤ → OrderResult × List TradeRecord × List NetCall)
    (h : cfg.max_order_usd < (contracts.natAbs : ℚ) ∨
      (contracts.natAbs : ℚ) < cfg.min_order_usd) :
    place_order_body cfg env oid symbol side contracts leverage ro k =
      (failResult (if cfg.max_order_usd < (contracts.natAbs : ℚ) then
        "Order size exceeds maximum" else "Order size below minimum"), [], []) := by
  unfold place_order_body
  rcases h with h | h
  · rw [if_pos h, if_pos h]
  · by_cases hmax : cfg.max_order_usd < (contracts.natAbs : ℚ)
    · rw [if_pos hmax, if_pos hmax]
    · rw [if_neg hmax, if_pos h, if_neg hmax]

/-- The dry-run short-circuit of place_order_body once the size gate passes. -/
theorem place_order_body_dry (cfg : ExecutorConfig) (env : Env) (oid : ℕ)
    (symbol side : String) (contracts leverage : ℤ) (ro : Bool)
    (k : ℤ → OrderResult × List TradeRecord × List NetCall)
    (hdry : cfg.dry_run = true)
    (hmax : ¬ cfg.max_order_usd < (contracts.natAbs : ℚ))
    (hmin : ¬ (contracts.natAbs : ℚ) < cfg.min_order_usd) :
    place_order_body cfg env oid symbol side contracts leverage ro k =
      ({ success := true, error := none,
         order_id := some ("DRY_RUN_" ++ (clientOid oid).take 8),
         client_oid := some (clientOid oid),
         order_type := some (if cfg.order_type = "limit" ∧
             (if cfg.order_type = "limit" then
               calculate_limit_price cfg env side else (0, [])).1 = 0
           then "market" else cfg.order_type),
         time_in_force := none, dry_run := true, partially_filled := false,
         filled_size := none },
       [],
       (if cfg.order_type = "limit" then
         calculate_limit_price cfg env side else (0, [])).2) := by
  unfold place_order_body
  rw [if_neg hmax, if_neg hmin, hdry]
  simp

/-- place_order for an in-range live market order against cfgLiveMkt: one
position-mode fetch, one submission, one FILLED ledger row. -/
theorem place_order_live_market_eval (fuel oid : ℕ) (env : Env) (c : ℤ)
    (hmode : env.position_mode_resp = "ONE_WAY")
    (hsub : env.submit oid = SubmitResp.ok "ORD2")
    (hmax : ¬ (10000:ℚ) < (c.natAbs : ℚ)) (hmin : ¬ ((c.natAbs : ℚ) < 100)) :
    place_order fuel cfgLiveMkt env oid "XBTUSDM" "sell" c 1 false =
      ({ success := true, error := none, order_id := some "ORD2",
         client_oid := some (clientOid oid), order_type := some "market",
         time_in_force := none, dry_run := false, partially_filled := false,
         filled_size := none },
       [mkRecord "OPEN_SHORT" "XBTUSDM" (c.natAbs : ℤ) none (some "ORD2") none "FILLED" none],
       [NetCall.fetchPositionMode, NetCall.submitOrder c.natAbs]) := by
  have hc : csvAction (some "OPEN SHORT") = "OPEN_SHORT" := by decide
  have s1 : (("ONE_WAY":String) = "") = False := eq_false (by decide)
  have s2 : (("ONE_WAY":String) = "ONE_WAY") = True := eq_true rfl
  have s3 : (("market":String) = "limit") = False := eq_false (by decide)
  have s4 : (("IOC":String) = "GTC") = False := eq_false (by decide)
  have s5 : (("sell":String) = "sell") = True := eq_true rfl
  cases fuel <;>
    · unfold place_order place_order_body
      rw [show cfgLiveMkt.max_order_usd = 10000 from rfl,
        show cfgLiveMkt.min_order_usd = 100 from rfl, if_neg hmax, if_neg hmin]
      norm_num [cfgLiveMkt, verify_position_mode, hmode, hsub, hc, mkRecord,
        s1, s2, s3, s4, s5]

/-- The live path of place_order_body with a position-mode mismatch: a
structured failure and no ledger row, only the verification calls. -/
theorem place_order_body_mode_mismatch (cfg : ExecutorConfig) (env : Env) (oid : ℕ)
    (symbol side : String) (contracts leverage : ℤ) (ro : Bool)
    (k : ℤ → OrderResult × List TradeRecord × List NetCall)
    (hdry : cfg.dry_run = false)
    (hmax : ¬ cfg.max_order_usd < (contracts.natAbs : ℚ))
    (hmin : ¬ (contracts.natAbs : ℚ) < cfg.min_order_usd)
    (hv : (verify_position_mode cfg env).1 = false) :
    place_order_body cfg env oid symbol side contracts leverage ro k =
      (failResult "Position mode mismatch", [], (verify_position_mode cfg env).2) := by
  unfold place_order_body
  rw [if_neg hmax, if_neg hmin, hdry]
  simp [hv]

/-- The live path of place_order_body whose submission is rejected (API
error) or fails in transport: the upstream message is returned verbatim as a
structured failure and no ledger row is written. -/
theorem place_order_body_submit_error (cfg : ExecutorConfig) (env : Env) (oid : ℕ)
    (symbol side : String) (contracts leverage : ℤ) (ro : Bool)
    (k : ℤ → OrderResult × List TradeRecord × List NetCall) (msg : String)
    (hdry : cfg.dry_run = false)
    (hmax : ¬ cfg.max_order_usd < (contracts.natAbs : ℚ))
    (hmin : ¬ (contracts.natAbs : ℚ) < cfg.min_order_usd)
    (hv : (verify_position_mode cfg env).1 = true)
    (hsub : env.submit oid = SubmitResp.apiError msg ∨
      env.submit oid = SubmitResp.requestError msg) :
    (place_order_body cfg env oid symbol side contracts leverage ro k).1 = failResult msg ∧
    (place_order_body cfg env oid symbol side contracts leverage ro k).2.1 = [] := by
  unfold place_order_body
  rw [if_neg hmax, if_neg hmin, hdry]
  rcases hsub with hsub | hsub <;> rw [hsub] <;> simp [hv]

/-- Any result returned by the pre-timeout polling phase is a success. -/
theorem monitor_poll_some_success (cfg : ExecutorConfig) (order_id symbol : String)
    (contracts : ℤ) (a : Option String) (p : Option ℚ) :
    ∀ (ticks : List (Option OrderDetails)) (r : OrderResult) (recs : List TradeRecord),
      (monitor_poll cfg order_id symbol contracts a p ticks).1 = some (r, recs) →
      r.success = true := by
  intro ticks
  induction ticks with
  | nil =>
    intro r recs h
    simp [monitor_poll] at h
  | cons tick rest ih =>
    intro r recs h
    cases tick with
    | none =>
      unfold monitor_poll at h
      exact ih r recs h
    | some d =>
      unfold monitor_poll at h
      dsimp only at h
      split at h
      · dsimp only at h
        injection h with h1
        injection h1 with h2 h3
        rw [← h2]
      · exact ih r recs h

/-- Any terminal result of the timeout branch that is a failure carries an
error message (the only failure there is the GTC-order-timeout value). -/
theorem monitor_timeout_step_terminal (cfg : ExecutorConfig) (env : Env) (oid : ℕ)
    (order_id symbol : String) (contracts : ℤ) (a : Option String) (p : Option ℚ)
    (b : Bool) (r : OrderResult) (recs : List TradeRecord) (calls : List NetCall)
    (h : monitor_timeout_step cfg env oid order_id symbol contracts a p b =
      MonitorOutcome.terminal r recs calls)
    (hs : r.success = false) : r.error.isSome = true := by
  unfold monitor_timeout_step at h
  split at h
  · dsimp only at h
    split at h
    · split at h
      · exact MonitorOutcome.noConfusion h
      · injection h with h1 h2 h3
        rw [← h1] at hs
        simp at hs
    · injection h with h1 h2 h3
      rw [← h1]
      rfl
  · injection h with h1 h2 h3
    rw [← h1]
    rfl

/-- Any terminal result of a whole monitoring pass that is a failure carries
an error message. -/
theorem monitor_core_terminal (cfg : ExecutorConfig) (env : Env) (oid : ℕ)
    (order_id symbol : String) (contracts : ℤ) (a : Option String) (p : Option ℚ)
    (r : OrderResult) (recs : List TradeRecord) (calls : List NetCall)
    (h : monitor_core cfg env oid order_id symbol contracts a p =
      MonitorOutcome.terminal r recs calls)
    (hs : r.success = false) : r.error.isSome = true := by
  unfold monitor_core at h
  split at h
  · next r0 recs0 pcalls heq =>
    injection h with h1 h2 h3
    rw [← h1] at hs
    rw [monitor_poll_some_success cfg order_id symbol contracts a p (env.poll_ticks oid)
      r0 recs0 (congrArg Prod.fst heq)] at hs
    exact absurd hs (by simp)
  · next pcalls heq =>
    split at h
    · next r1 recs1 tcalls heq2 =>
      injection h with h1 h2 h3
      rw [← h1] at hs
      rw [← h1]
      exact monitor_timeout_step_terminal cfg env oid order_id symbol contracts a p
        env.cancel_ok r1 recs1 tcalls heq2 hs
    · next u recs1 tcalls heq2 =>
      exact MonitorOutcome.noConfusion h

/-- Every failure result of place_order_body carries an error message,
provided the resubmission continuation has the same property. -/
theorem place_order_body_failure_error (cfg : ExecutorConfig) (env : Env) (oid : ℕ)
    (symbol side : String) (contracts leverage : ℤ) (ro : Bool)
    (k : ℤ → OrderResult × List TradeRecord × List NetCall)
    (hk : ∀ u, ((k u).1).success = false → ((k u).1).error.isSome = true) :
    ((place_order_body cfg env oid symbol side contracts leverage ro k).1).success = false →
    ((place_order_body cfg env oid symbol side contracts leverage ro k).1).error.isSome =
      true := by
  unfold place_order_body
  split
  · intro _
    rfl
  · split
    · intro _
      rfl
    · dsimp only
      by_cases hdry : cfg.dry_run = true
      · simp only [hdry, eq_self_iff_true, if_true]
        intro h
        rw [if_neg (by simp)] at h
        exact absurd h (by simp)
      · have hdry' : cfg.dry_run = false := by
          cases hcd : cfg.dry_run
          · rfl
          · exact absurd hcd hdry
        simp only [hdry', Bool.false_eq_true, if_false]
        split
        · intro _
          rfl
        · split
          · next oi heq =>
            rcases hmo : monitor_core cfg env oid oi symbol contracts
                (some (if side = "sell" ∧ ro = false then "OPEN SHORT" else "CLOSE SHORT"))
                (if cfg.order_type = "limit" then
                  some (if cfg.order_type = "limit" then
                    calculate_limit_price cfg env side else (0, [])).1
                else none)
              with ⟨r, recs, mcalls⟩ | ⟨u, recs, mcalls⟩
            · simp only [hmo]
              by_cases hA : ((if cfg.order_type = "limit" ∧
                    (if cfg.order_type = "limit" then
                      calculate_limit_price cfg env side else (0, [])).1 = 0
                  then "market" else cfg.order_type) = "limit" ∧
                  (if cfg.order_type = "limit" ∧ cfg.slippage_pct < 0 then "GTC"
                    else cfg.time_in_force) = "GTC")
              · rw [if_pos hA]
                intro hs
                exact monitor_core_terminal _ _ _ _ _ _ _ _ r recs mcalls hmo hs
              · rw [if_neg hA]
                intro hs
                exact absurd hs (by simp)
            · simp only [hmo]
              by_cases hA : ((if cfg.order_type = "limit" ∧
                    (if cfg.order_type = "limit" then
                      calculate_limit_price cfg env side else (0, [])).1 = 0
                  then "market" else cfg.order_type) = "limit" ∧
                  (if cfg.order_type = "limit" ∧ cfg.slippage_pct < 0 then "GTC"
                    else cfg.time_in_force) = "GTC")
              · rw [if_pos hA]
                intro hs
                exact hk u hs
              · rw [if_neg hA]
                intro hs
                exact absurd hs (by simp)
          · next m heq =>
            intro _
            rfl
          · next m heq =>
            intro _
            rfl

/-- Every failure result of place_order carries an error message: failures
surface as structured values, never as missing information. -/
theorem place_order_failure_error (fuel : ℕ) :
    ∀ (cfg : ExecutorConfig) (env : Env) (oid : ℕ) (symbol side : String)
      (contracts leverage : ℤ) (ro : Bool),
      ((place_order fuel cfg env oid symbol side contracts leverage ro).1).success = false →
      ((place_order fuel cfg env oid symbol side contracts leverage ro).1).error.isSome =
        true := by
  induction fuel with
  | zero =>
    intro cfg env oid symbol side contracts leverage ro
    unfold place_order
    exact place_order_body_failure_error cfg env oid symbol side contracts leverage ro _
      (fun u hf => rfl)
  | succ n ih =>
    intro cfg env oid symbol side contracts leverage ro
    unfold place_order
    exact place_order_body_failure_error cfg env oid symbol side contracts leverage ro _
      (fun u => ih cfg env (oid+1) symbol side u leverage ro)

/-! ## Claim C1 -/

/-- C1 counterexample: a GTC order of 1000 contracts with zero filled at
timeout.  The controller cancels and emits the CANCELLED row, but then, far
from terminating, it resubmits: the trace contains a fresh order submission
for 1000 contracts and the run ends with the new order ORD2 accepted and a
second (FILLED) ledger row — refuting claim C1's assertion that the
controller terminates without resubmitting any new order. -/
theorem C1_counterexample :
    NetCall.submitOrder 1000 ∈
      (monitor_gtc_order 1 cfgLiveMkt envZeroFill 0 "ORD1" "XBTUSDM" "sell" 1000 1 false
        (some "OPEN SHORT") (some 50000)).2.2 ∧
    (monitor_gtc_order 1 cfgLiveMkt envZeroFill 0 "ORD1" "XBTUSDM" "sell" 1000 1 false
        (some "OPEN SHORT") (some 50000)).2.1 =
      [mkRecord "OPEN_SHORT" "XBTUSDM" 1000 (some 50000) (some "ORD1") (some (1/10))
        "CANCELLED" (some "GTC timeout - no fill"),
       mkRecord "OPEN_SHORT" "XBTUSDM" 1000 none (some "ORD2") none "FILLED" none] ∧
    (monitor_gtc_order 1 cfgLiveMkt envZeroFill 0 "ORD1" "XBTUSDM" "sell" 1000 1 false
        (some "OPEN SHORT") (some 50000)).1.order_id = some "ORD2" := by
  have hq : pyInt ((1000:ℚ) - 0) = 1000 := by norm_num [pyInt]; rfl
  have h := monitor_timeout_resubmit 0 cfgLiveMkt envZeroFill 0 "ORD1" "XBTUSDM" "sell"
    1000 1 false (some "OPEN SHORT") (some 50000) 0 1000 "open" rfl rfl (by norm_num)
    (by rw [hq]; norm_num)
  rw [hq] at h
  rw [place_order_live_market_eval 0 1 envZeroFill 1000 rfl rfl (by norm_num) (by norm_num)]
    at h
  have hc : csvAction (some "OPEN SHORT") = "OPEN_SHORT" := by decide
  have ht : truthyStr (some "OPEN SHORT") = true := by decide
  have hp : truthyPrice (some (50000:ℚ)) = true := by decide
  rw [h]
  refine ⟨?_, ?_, ?_⟩
  · simp
  · rw [if_pos ⟨rfl, ht, hp⟩, hc]
    rfl
  · rfl

/-- C1 (amended): when the GTC timeout elapses with exactly zero filled (and
at least one whole contract outstanding), the controller cancels the order
and emits exactly one CANCELLED ledger record for this attempt, but it does
NOT terminate: it resubmits a brand-new order (fresh attempt counter, hence
fresh client identifier and fresh pricing) for the whole truncated remaining
size through place_order — the zero-fill case is handled exactly like a
partial fill, there is no special no-resubmission policy. -/
theorem C1_gtc_zero_fill_resubmits (n : ℕ) (cfg : ExecutorConfig) (env : Env) (oid : ℕ)
    (order_id symbol side : String) (contracts leverage : ℤ) (ro : Bool)
    (a : String) (p t : ℚ) (st : String)
    (hpoll : env.poll_ticks oid = [])
    (hdet : env.details_at_timeout oid = some { dealSize := 0, size := some t, status := st })
    (ht : 1 ≤ t) (ha : a ≠ "") (hp : p ≠ 0) :
    monitor_gtc_order (n+1) cfg env oid order_id symbol side contracts leverage ro
        (some a) (some p) =
      ((place_order n cfg env (oid+1) symbol side (pyInt t) leverage ro).1,
       mkRecord (csvAction (some a)) symbol (contracts.natAbs : ℤ) (some p) (some order_id)
         (some cfg.slippage_pct) "CANCELLED" (some "GTC timeout - no fill") ::
         (place_order n cfg env (oid+1) symbol side (pyInt t) leverage ro).2.1,
       [NetCall.fetchOrderDetails, NetCall.cancelOrder] ++
         (place_order n cfg env (oid+1) symbol side (pyInt t) leverage ro).2.2) := by
  have h0t : (0:ℚ) < t := lt_of_lt_of_le one_pos ht
  have hpos : 0 < pyInt (t - 0) := by rw [sub_zero]; exact pyInt_pos_of_one_le ht
  have h := monitor_timeout_resubmit n cfg env oid order_id symbol side contracts leverage ro
    (some a) (some p) 0 t st hpoll hdet h0t hpos
  rw [sub_zero] at h
  rw [h, if_pos ⟨rfl, by simpa [truthyStr] using ha, by simpa [truthyPrice] using hp⟩]
  simp

/-- C1 witness: concrete instance of the amended theorem at envZeroFill. -/
theorem C1_witness :
    (1:ℚ) ≤ 1000 ∧
    (monitor_gtc_order 1 cfgLiveMkt envZeroFill 0 "ORD1" "XBTUSDM" "sell" 1000 1 false
      (some "OPEN SHORT") (some 50000)).1 =
    (place_order 0 cfgLiveMkt envZeroFill 1 "XBTUSDM" "sell" (pyInt 1000) 1 false).1 := by
  constructor
  · norm_num
  · have h := C1_gtc_zero_fill_resubmits 0 cfgLiveMkt envZeroFill 0 "ORD1" "XBTUSDM" "sell"
      1000 1 false "OPEN SHORT" 50000 1000 "open" rfl rfl (by norm_num) (by decide)
      (by norm_num)
    rw [h]

/-! ## Claim C2 -/

/-- C2 counterexample: a GTC order of 1000 contracts with 400 filled at
timeout.  The controller cancels and resubmits exactly the 600-contract
remainder, but the run emits NO PARTIAL ledger record at all (its ledger
rows are exactly one FILLED row for the resubmitted order) — refuting claim
C2's assertion that one PARTIAL record is emitted for the filled portion. -/
theorem C2_counterexample :
    ((monitor_gtc_order 1 cfgLiveMkt envPartialFill 0 "ORD1" "XBTUSDM" "sell" 1000 1 false
        (some "OPEN SHORT") (some 50000)).2.1.filter fun r => r.status = "PARTIAL") = [] ∧
    (monitor_gtc_order 1 cfgLiveMkt envPartialFill 0 "ORD1" "XBTUSDM" "sell" 1000 1 false
        (some "OPEN SHORT") (some 50000)).2.1 =
      [mkRecord "OPEN_SHORT" "XBTUSDM" 600 none (some "ORD2") none "FILLED" none] ∧
    NetCall.submitOrder 600 ∈
      (monitor_gtc_order 1 cfgLiveMkt envPartialFill 0 "ORD1" "XBTUSDM" "sell" 1000 1 false
        (some "OPEN SHORT") (some 50000)).2.2 := by
  have hq : pyInt ((1000:ℚ) - 400) = 600 := by norm_num [pyInt]; rfl
  have h := monitor_timeout_resubmit 0 cfgLiveMkt envPartialFill 0 "ORD1" "XBTUSDM" "sell"
    1000 1 false (some "OPEN SHORT") (some 50000) 400 1000 "open" rfl rfl (by norm_num)
    (by rw [hq]; norm_num)
  rw [hq] at h
  rw [place_order_live_market_eval 0 1 envPartialFill 600 rfl rfl (by norm_num) (by norm_num)]
    at h
  rw [h, if_neg (by norm_num)]
  refine ⟨?_, ?_, ?_⟩
  · simp [mkRecord, List.filter]
  · rfl
  · simp

/-- C2 (amended): when the GTC timeout elapses with a nonzero but incomplete
filled quantity whose remainder is at least one contract, the controller
cancels the remainder and resubmits a brand-new order (fresh attempt counter,
hence fresh identifier and fresh pricing) for exactly the truncated unfilled
remainder, but it emits NO ledger record for this attempt at that point — in
particular no PARTIAL record for the filled portion (the source only writes a
PARTIAL row in the branch where the remainder truncates to zero contracts). -/
theorem C2_gtc_partial_resubmits (n : ℕ) (cfg : ExecutorConfig) (env : Env) (oid : ℕ)
    (order_id symbol side : String) (contracts leverage : ℤ) (ro : Bool)
    (a : Option String) (p : Option ℚ) (f t : ℚ) (st : String)
    (hpoll : env.poll_ticks oid = [])
    (hdet : env.details_at_timeout oid = some { dealSize := f, size := some t, status := st })
    (hf : f ≠ 0) (hrem : 1 ≤ t - f) :
    monitor_gtc_order (n+1) cfg env oid order_id symbol side contracts leverage ro a p =
      ((place_order n cfg env (oid+1) symbol side (pyInt (t - f)) leverage ro).1,
       (place_order n cfg env (oid+1) symbol side (pyInt (t - f)) leverage ro).2.1,
       [NetCall.fetchOrderDetails, NetCall.cancelOrder] ++
         (place_order n cfg env (oid+1) symbol side (pyInt (t - f)) leverage ro).2.2) := by
  have hlt : f < t := by linarith
  have hpos : 0 < pyInt (t - f) := pyInt_pos_of_one_le hrem
  have h := monitor_timeout_resubmit n cfg env oid order_id symbol side contracts leverage ro
    a p f t st hpoll hdet hlt hpos
  rw [h, if_neg (by simp [hf])]
  simp

/-- C2 witness: concrete instance of the amended theorem at envPartialFill. -/
theorem C2_witness :
    (400:ℚ) ≠ 0 ∧ (1:ℚ) ≤ 1000 - 400 ∧
    (monitor_gtc_order 1 cfgLiveMkt envPartialFill 0 "ORD1" "XBTUSDM" "sell" 1000 1 false
      (some "OPEN SHORT") (some 50000)).2.1 =
    (place_order 0 cfgLiveMkt envPartialFill 1 "XBTUSDM" "sell" (pyInt (1000 - 400)) 1
      false).2.1 := by
  refine ⟨by norm_num, by norm_num, ?_⟩
  have h := C2_gtc_partial_resubmits 0 cfgLiveMkt envPartialFill 0 "ORD1" "XBTUSDM" "sell"
    1000 1 false (some "OPEN SHORT") (some 50000) 400 1000 "open" rfl rfl (by norm_num)
    (by norm_num)
  rw [h]

/-! ## Claim C10 -/

/-- C10 (confirmed): the timeout handler of monitor_gtc_order does not
inspect the boolean result of cancel_order: for EVERY cancel outcome b —
including a failed cancellation — an under-filled order with a positive
truncated remainder leads to the same resubmission request for that
remainder (the source binds cancel_success only to log it). -/
theorem C10_resubmit_ignores_cancel_result (cfg : ExecutorConfig) (env : Env) (oid : ℕ)
    (order_id symbol : String) (contracts : ℤ)
    (a : Option String) (p : Option ℚ) (f t : ℚ) (st : String)
    (hdet : env.details_at_timeout oid = some { dealSize := f, size := some t, status := st })
    (hlt : f < t) (hpos : 0 < pyInt (t - f)) :
    ∀ b : Bool,
      monitor_timeout_step cfg env oid order_id symbol contracts a p b =
        MonitorOutcome.resubmit (pyInt (t - f))
          (if f = 0 ∧ truthyStr a = true ∧ truthyPrice p = true then
            [mkRecord (csvAction a) symbol (contracts.natAbs : ℤ) p (some order_id)
              (some cfg.slippage_pct) "CANCELLED" (some "GTC timeout - no fill")]
          else [])
          [NetCall.fetchOrderDetails, NetCall.cancelOrder] := by
  intro b
  unfold monitor_timeout_step
  rw [hdet]
  simp only [Option.getD, if_pos hlt, if_pos hpos]

/-- C10 witness: at the concrete 400-of-1000 timeout, the handler requests
resubmission of 600 contracts both when the cancel succeeded and when it
failed. -/
theorem C10_witness :
    (400:ℚ) < 1000 ∧
    monitor_timeout_step cfgLiveMkt envPartialFill 0 "ORD1" "XBTUSDM" 1000
        (some "OPEN SHORT") (some 50000) false =
      monitor_timeout_step cfgLiveMkt envPartialFill 0 "ORD1" "XBTUSDM" 1000
        (some "OPEN SHORT") (some 50000) true := by
  refine ⟨by norm_num, ?_⟩
  have hq : (0:ℤ) < pyInt ((1000:ℚ) - 400) := by
    rw [show pyInt ((1000:ℚ) - 400) = 600 by norm_num [pyInt]; rfl]
    norm_num
  have h1 := C10_resubmit_ignores_cancel_result cfgLiveMkt envPartialFill 0 "ORD1" "XBTUSDM"
    1000 (some "OPEN SHORT") (some 50000) 400 1000 "open" rfl (by norm_num) hq false
  have h2 := C10_resubmit_ignores_cancel_result cfgLiveMkt envPartialFill 0 "ORD1" "XBTUSDM"
    1000 (some "OPEN SHORT") (some 50000) 400 1000 "open" rfl (by norm_num) hq true
  rw [h1, h2]

/-! ## Claim C3 -/

/-- C3 counterexample: a zero-value portfolio (no cold storage, zero equity,
no positions) with target 50 percent and threshold 1 percent.  Both
allocations are 0 as claimed, but needs_rebalancing is TRUE, because the
deviation is 0 − 50 = −50 and |−50| > 1 — refuting the claim that
needs_rebalancing is false regardless of target and threshold. -/
theorem C3_counterexample :
    (calculate_metrics 0 { accountEquity := 0 } [] 50000 50 1).total_portfolio_usd = 0 ∧
    (calculate_metrics 0 { accountEquity := 0 } [] 50000 50 1).current_btc_allocation = 0 ∧
    (calculate_metrics 0 { accountEquity := 0 } [] 50000 50 1).current_usd_allocation = 0 ∧
    (calculate_metrics 0 { accountEquity := 0 } [] 50000 50 1).needs_rebalancing = true := by
  norm_num [calculate_metrics, total_short_usd, shortDetails, pyAbs]

/-- C3 (amended): when the total portfolio value is zero, both returned
allocations are 0, but needs_rebalancing is NOT unconditionally false: it
is true exactly when |target_allocation| exceeds the threshold, because the
deviation computed at a zero portfolio is 0 − target_allocation. -/
theorem C3_zero_portfolio (cold : ℚ) (acct : FuturesAccount) (ps : List RawPosition)
    (price target thresh : ℚ)
    (h : (calculate_metrics cold acct ps price target thresh).total_portfolio_usd = 0) :
    (calculate_metrics cold acct ps price target thresh).current_btc_allocation = 0 ∧
    (calculate_metrics cold acct ps price target thresh).current_usd_allocation = 0 ∧
    ((calculate_metrics cold acct ps price target thresh).needs_rebalancing = true ↔
      thresh < |target|) := by
  have h' : (cold + acct.accountEquity) * price = 0 := h
  have hnot : ¬ 0 < (cold + acct.accountEquity) * price := by
    rw [h']
    exact lt_irrefl 0
  simp only [calculate_metrics]
  rw [if_neg hnot, if_neg hnot]
  refine ⟨rfl, rfl, ?_⟩
  rw [zero_sub, pyAbs_eq_abs, abs_neg]
  exact decide_eq_true_iff

/-- C3 witness: the amended theorem applied at the concrete zero portfolio,
where needs_rebalancing is indeed true since 1 < |50|. -/
theorem C3_witness :
    (calculate_metrics 0 { accountEquity := 0 } [] 50000 50 1).total_portfolio_usd = 0 ∧
    ((calculate_metrics 0 { accountEquity := 0 } [] 50000 50 1).needs_rebalancing = true ↔
      (1:ℚ) < |(50:ℚ)|) := by
  constructor
  · norm_num [calculate_metrics]
  · exact (C3_zero_portfolio 0 { accountEquity := 0 } [] 50000 50 1
      (by norm_num [calculate_metrics])).2.2

/-! ## Claim C4 -/

/-- C4 counterexample: ticker with best bid 0, best ask 48100, last price
48000.  Either side being zero and last price positive, the claim asserts
BOTH sides of the result equal the last price, but the code only replaces
the zero side: the result is bid 48000 and ask 48100 ≠ 48000. -/
theorem C4_counterexample :
    (get_best_bid_ask
      { bestBidPrice := 0, bestAskPrice := 48100, price := 48000, ts := 0 }).best_bid =
        48000 ∧
    (get_best_bid_ask
      { bestBidPrice := 0, bestAskPrice := 48100, price := 48000, ts := 0 }).best_ask =
        48100 ∧
    (get_best_bid_ask
        { bestBidPrice := 0, bestAskPrice := 48100, price := 48000, ts := 0 }).best_ask ≠
      (get_best_bid_ask
        { bestBidPrice := 0, bestAskPrice := 48100, price := 48000, ts := 0 }).last_price := by
  norm_num [get_best_bid_ask]

/-- C4 (amended): when either parsed side is zero and the last trade price is
positive, each NON-POSITIVE side degrades to the last price while a positive
side is kept unchanged; both sides equal the last price only when both are
non-positive (in particular when both are zero, as in the spec's scenario). -/
theorem C4_quote_fallback (t : TickerData)
    (hz : t.bestBidPrice = 0 ∨ t.bestAskPrice = 0) (hp : 0 < t.price) :
    (get_best_bid_ask t).best_bid =
      (if 0 < t.bestBidPrice then t.bestBidPrice else t.price) ∧
    (get_best_bid_ask t).best_ask =
      (if 0 < t.bestAskPrice then t.bestAskPrice else t.price) ∧
    (get_best_bid_ask t).last_price = t.price := by
  unfold get_best_bid_ask
  rw [if_pos hz, if_pos hp]
  exact ⟨rfl, rfl, rfl⟩

/-- C4 witness: the amended theorem at the both-sides-zero ticker of the
spec's scenario D, where both sides do degrade to the 48000 last price. -/
theorem C4_witness :
    (0:ℚ) < 48000 ∧
    (get_best_bid_ask
      { bestBidPrice := 0, bestAskPrice := 0, price := 48000, ts := 0 }).best_bid = 48000 ∧
    (get_best_bid_ask
      { bestBidPrice := 0, bestAskPrice := 0, price := 48000, ts := 0 }).best_ask = 48000 := by
  have h := C4_quote_fallback
    { bestBidPrice := 0, bestAskPrice := 0, price := 48000, ts := 0 }
    (Or.inl rfl) (by norm_num)
  refine ⟨by norm_num, ?_, ?_⟩
  · rw [h.1]
    norm_num
  · rw [h.2.1]
    norm_num

/-! ## Claim C6 -/

/-- C6 (confirmed): whenever the total portfolio value is strictly positive,
the two allocations returned by calculate_metrics sum to exactly 100 (exact
rational arithmetic, hence a fortiori within the claimed 1e-9 tolerance). -/
theorem C6_allocation_identity (cold : ℚ) (acct : FuturesAccount) (ps : List RawPosition)
    (price target thresh : ℚ)
    (h : 0 < (calculate_metrics cold acct ps price target thresh).total_portfolio_usd) :
    (calculate_metrics cold acct ps price target thresh).current_btc_allocation +
      (calculate_metrics cold acct ps price target thresh).current_usd_allocation = 100 := by
  have h' : 0 < (cold + acct.accountEquity) * price := h
  have hne : (cold + acct.accountEquity) * price ≠ 0 := ne_of_gt h'
  simp only [calculate_metrics]
  rw [if_pos h', if_pos h']
  field_simp
  ring

/-- C6 witness: the identity at a concrete snapshot (1 BTC cold storage,
zero equity, one open short of 10000 contracts, price 50000). -/
theorem C6_witness :
    0 < (calculate_metrics 1 { accountEquity := 0 }
      [{ symbol := "XBTUSDM", currentQty := -10000, isInverse := true, markPrice := none,
         avgEntryPrice := 49000, unrealisedPnl := 0, isOpen := true }] 50000 50 1).total_portfolio_usd ∧
    (calculate_metrics 1 { accountEquity := 0 }
      [{ symbol := "XBTUSDM", currentQty := -10000, isInverse := true, markPrice := none,
         avgEntryPrice := 49000, unrealisedPnl := 0, isOpen := true }] 50000 50 1).current_btc_allocation +
    (calculate_metrics 1 { accountEquity := 0 }
      [{ symbol := "XBTUSDM", currentQty := -10000, isInverse := true, markPrice := none,
         avgEntryPrice := 49000, unrealisedPnl := 0, isOpen := true }] 50000 50 1).current_usd_allocation
      = 100 := by
  constructor
  · norm_num [calculate_metrics]
  · exact C6_allocation_identity 1 { accountEquity := 0 }
      [{ symbol := "XBTUSDM", currentQty := -10000, isInverse := true, markPrice := none,
         avgEntryPrice := 49000, unrealisedPnl := 0, isOpen := true }] 50000 50 1
      (by norm_num [calculate_metrics])

/-! ## Claim C5 -/

/-- C5 (confirmed): a requested contract count above the configured maximum
or below the configured minimum makes place_order return a failure value
having made no network call at all (and no ledger row either). -/
theorem C5_size_gate (fuel : ℕ) (cfg : ExecutorConfig) (env : Env) (oid : ℕ)
    (symbol side : String) (contracts leverage : ℤ) (ro : Bool)
    (h : cfg.max_order_usd < (contracts.natAbs : ℚ) ∨
      (contracts.natAbs : ℚ) < cfg.min_order_usd) :
    (place_order fuel cfg env oid symbol side contracts leverage ro).1.success = false ∧
    (place_order fuel cfg env oid symbol side contracts leverage ro).2.2 = [] ∧
    (place_order fuel cfg env oid symbol side contracts leverage ro).2.1 = [] := by
  cases fuel <;>
    · unfold place_order
      rw [place_order_body_gate _ _ _ _ _ _ _ _ _ h]
      exact ⟨rfl, rfl, rfl⟩

/-- C5 witness: an order of 20000 contracts against the 10000 ceiling is
rejected with an empty network trace. -/
theorem C5_witness :
    (cfgLiveMkt.max_order_usd < (((20000:ℤ)).natAbs : ℚ) ∨
      ((((20000:ℤ)).natAbs : ℚ) < cfgLiveMkt.min_order_usd)) ∧
    (place_order 1 cfgLiveMkt envZeroFill 0 "XBTUSDM" "sell" 20000 1 false).1.success =
      false ∧
    (place_order 1 cfgLiveMkt envZeroFill 0 "XBTUSDM" "sell" 20000 1 false).2.2 = [] := by
  have hgate : cfgLiveMkt.max_order_usd < (((20000:ℤ)).natAbs : ℚ) ∨
      ((((20000:ℤ)).natAbs : ℚ) < cfgLiveMkt.min_order_usd) :=
    Or.inl (by norm_num [cfgLiveMkt])
  have h := C5_size_gate 1 cfgLiveMkt envZeroFill 0 "XBTUSDM" "sell" 20000 1 false hgate
  exact ⟨hgate, h.1, h.2.1⟩

/-! ## Claim C7 -/

/-- C7 counterexample: an order of 20000 contracts rejected by the size gate
terminates with a structured failure result but emits ZERO ledger records,
refuting the claim that every terminal outcome yields exactly one ledger
record. -/
theorem C7_counterexample :
    (place_order 1 cfgLiveMkt envZeroFill 0 "XBTUSDM" "sell" 20000 1 false).2.1 = [] ∧
    (place_order 1 cfgLiveMkt envZeroFill 0 "XBTUSDM" "sell" 20000 1 false).1.success =
      false ∧
    (place_order 1 cfgLiveMkt envZeroFill 0 "XBTUSDM" "sell" 20000 1 false).1.error =
      some "Order size exceeds maximum" := by
  unfold place_order
  rw [place_order_body_gate _ _ _ _ _ _ _ _ _ (Or.inl (by norm_num [cfgLiveMkt]))]
  refine ⟨rfl, rfl, ?_⟩
  rw [if_pos (by norm_num [cfgLiveMkt] : cfgLiveMkt.max_order_usd < (((20000:ℤ)).natAbs : ℚ))]
  rfl

/-- C7 (amended): every terminal outcome of place_order is a single
structured result value — the controller is a total function into result
values, and every failure it returns carries its error message, so failures
surface as values, never as exceptions — but NOT every terminal outcome
emits exactly one ledger record: size-gate rejections, position-mode
mismatches and submission errors (API rejections and transport failures)
all return a structured failure with ZERO ledger records, and a dry-run
fill returns a success with zero ledger records. -/
theorem C7_result_and_ledger (fuel : ℕ) (cfg : ExecutorConfig) (env : Env) (oid : ℕ)
    (symbol side : String) (contracts leverage : ℤ) (ro : Bool) :
    ((place_order fuel cfg env oid symbol side contracts leverage ro).1.success = false →
      (place_order fuel cfg env oid symbol side contracts leverage ro).1.error.isSome =
        true) ∧
    ((cfg.max_order_usd < (contracts.natAbs : ℚ) ∨
        (contracts.natAbs : ℚ) < cfg.min_order_usd) →
      (place_order fuel cfg env oid symbol side contracts leverage ro).1.success = false ∧
      (place_order fuel cfg env oid symbol side contracts leverage ro).2.1 = []) ∧
    (cfg.dry_run = false → ¬ cfg.max_order_usd < (contracts.natAbs : ℚ) →
      ¬ (contracts.natAbs : ℚ) < cfg.min_order_usd →
      (verify_position_mode cfg env).1 = false →
      (place_order fuel cfg env oid symbol side contracts leverage ro).1 =
        failResult "Position mode mismatch" ∧
      (place_order fuel cfg env oid symbol side contracts leverage ro).2.1 = []) ∧
    (∀ msg, cfg.dry_run = false → ¬ cfg.max_order_usd < (contracts.natAbs : ℚ) →
      ¬ (contracts.natAbs : ℚ) < cfg.min_order_usd →
      (verify_position_mode cfg env).1 = true →
      (env.submit oid = SubmitResp.apiError msg ∨
        env.submit oid = SubmitResp.requestError msg) →
      (place_order fuel cfg env oid symbol side contracts leverage ro).1 = failResult msg ∧
      (place_order fuel cfg env oid symbol side contracts leverage ro).2.1 = []) ∧
    (cfg.dry_run = true → ¬ cfg.max_order_usd < (contracts.natAbs : ℚ) →
      ¬ (contracts.natAbs : ℚ) < cfg.min_order_usd →
      (place_order fuel cfg env oid symbol side contracts leverage ro).1.success = true ∧
      (place_order fuel cfg env oid symbol side contracts leverage ro).2.1 = []) := by
  refine ⟨?_, ?_, ?_, ?_, ?_⟩
  · exact place_order_failure_error fuel cfg env oid symbol side contracts leverage ro
  · intro h
    cases fuel <;>
      · unfold place_order
        rw [place_order_body_gate _ _ _ _ _ _ _ _ _ h]
        exact ⟨rfl, rfl⟩
  · intro hdry hmax hmin hv
    cases fuel <;>
      · unfold place_order
        rw [place_order_body_mode_mismatch _ _ _ _ _ _ _ _ _ hdry hmax hmin hv]
        exact ⟨rfl, rfl⟩
  · intro msg hdry hmax hmin hv hsub
    cases fuel <;>
      · unfold place_order
        exact place_order_body_submit_error _ _ _ _ _ _ _ _ _ msg hdry hmax hmin hv hsub
  · intro hdry hmax hmin
    cases fuel <;>
      · unfold place_order
        rw [place_order_body_dry _ _ _ _ _ _ _ _ _ hdry hmax hmin]
        exact ⟨rfl, rfl⟩

/-- C7 witness: a live order rejected by the API terminates as a structured
failure carrying the upstream message with zero ledger records, and a
dry-run fill of 1000 contracts succeeds, also with zero ledger records. -/
theorem C7_witness :
    (place_order 1 cfgLiveMkt envSubmitErr 0 "XBTUSDM" "sell" 1000 1 false).1 =
      failResult "Balance insufficient" ∧
    (place_order 1 cfgLiveMkt envSubmitErr 0 "XBTUSDM" "sell" 1000 1 false).2.1 = [] ∧
    (place_order 1 cfgDryMkt envZeroFill 0 "XBTUSDM" "sell" 1000 1 false).1.success = true ∧
    (place_order 1 cfgDryMkt envZeroFill 0 "XBTUSDM" "sell" 1000 1 false).2.1 = [] := by
  have hsub := (C7_result_and_ledger 1 cfgLiveMkt envSubmitErr 0 "XBTUSDM" "sell" 1000 1
      false).2.2.2.1 "Balance insufficient" rfl (by norm_num [cfgLiveMkt])
    (by norm_num [cfgLiveMkt]) (by decide) (Or.inl rfl)
  have hdry := (C7_result_and_ledger 1 cfgDryMkt envZeroFill 0 "XBTUSDM" "sell" 1000 1
      false).2.2.2.2 rfl (by norm_num [cfgDryMkt]) (by norm_num [cfgDryMkt])
  exact ⟨hsub.1, hsub.2, hdry.1, hdry.2⟩

/-! ## Claim C8 -/

/-- C8 (confirmed): in dry-run mode place_order never fetches or sets the
position mode and never submits an order (every network call it can make is
the ticker fetch of limit pricing); once the size gate passes, it returns a
success carrying the synthetic DRY_RUN_ identifier. -/
theorem C8_dry_run_short_circuit (fuel : ℕ) (cfg : ExecutorConfig) (env : Env) (oid : ℕ)
    (symbol side : String) (contracts leverage : ℤ) (ro : Bool)
    (hdry : cfg.dry_run = true) :
    (∀ c ∈ (place_order fuel cfg env oid symbol side contracts leverage ro).2.2,
      c = NetCall.fetchTicker) ∧
    (¬ cfg.max_order_usd < (contracts.natAbs : ℚ) →
      ¬ (contracts.natAbs : ℚ) < cfg.min_order_usd →
      (place_order fuel cfg env oid symbol side contracts leverage ro).1.success = true ∧
      (place_order fuel cfg env oid symbol side contracts leverage ro).1.order_id =
        some ("DRY_RUN_" ++ (clientOid oid).take 8) ∧
      (place_order fuel cfg env oid symbol side contracts leverage ro).1.dry_run = true) := by
  cases fuel <;>
    · unfold place_order
      constructor
      · intro c hc
        by_cases hmax : cfg.max_order_usd < (contracts.natAbs : ℚ)
        · rw [place_order_body_gate _ _ _ _ _ _ _ _ _ (Or.inl hmax)] at hc
          simp at hc
        · by_cases hmin : (contracts.natAbs : ℚ) < cfg.min_order_usd
          · rw [place_order_body_gate _ _ _ _ _ _ _ _ _ (Or.inr hmin)] at hc
            simp at hc
          · rw [place_order_body_dry _ _ _ _ _ _ _ _ _ hdry hmax hmin] at hc
            by_cases hl : cfg.order_type = "limit"
            · rw [if_pos hl, calculate_limit_price_calls] at hc
              simpa using hc
            · rw [if_neg hl] at hc
              simp at hc
      · intro hmax hmin
        rw [place_order_body_dry _ _ _ _ _ _ _ _ _ hdry hmax hmin]
        exact ⟨rfl, rfl, rfl⟩

/-- C8 witness: the dry-run success with the synthetic identifier at a
concrete in-range order, with every call in the trace a ticker fetch
(here the trace is in fact empty since the order type is market). -/
theorem C8_witness :
    cfgDryMkt.dry_run = true ∧
    (place_order 1 cfgDryMkt envZeroFill 0 "XBTUSDM" "sell" 1000 1 false).1.order_id =
      some "DRY_RUN_uuid-0" ∧
    (∀ c ∈ (place_order 1 cfgDryMkt envZeroFill 0 "XBTUSDM" "sell" 1000 1 false).2.2,
      c = NetCall.fetchTicker) := by
  have h := C8_dry_run_short_circuit 1 cfgDryMkt envZeroFill 0 "XBTUSDM" "sell" 1000 1
    false rfl
  refine ⟨rfl, ?_, h.1⟩
  rw [(h.2 (by norm_num [cfgDryMkt]) (by norm_num [cfgDryMkt])).2.1]
  rfl

/-! ## Claim C9 -/

theorem try_attempts_cons_ok {A : Type} (resp : String → VariantResp A)
    (n1 p1 : String) (rest : List (String × String)) (d : A) (last : Option String)
    (h : resp p1 = VariantResp.ok d) :
    try_attempts resp ((n1, p1) :: rest) last = (some d, last) := by
  unfold try_attempts
  rw [h]

theorem try_attempts_cons_fail {A : Type} (resp : String → VariantResp A)
    (n1 p1 : String) (rest : List (String × String)) (r : VariantResp A)
    (last : Option String) (h : resp p1 = r) (hr : r.isOk = false) :
    try_attempts resp ((n1, p1) :: rest) last =
      try_attempts resp rest (variantErrMsg n1 r) := by
  cases r with
  | ok d => simp [VariantResp.isOk] at hr
  | http400 =>
    conv_lhs => unfold try_attempts; rw [h]
  | httpError m =>
    conv_lhs => unfold try_attempts; rw [h]
  | transportError m =>
    conv_lhs => unfold try_attempts; rw [h]
  | apiError m =>
    conv_lhs => unfold try_attempts; rw [h]

theorem try_attempts_nil {A : Type} (resp : String → VariantResp A)
    (last : Option String) : try_attempts resp [] last = (none, last) := rfl

/-- C9 (confirmed): both account and position reads try the parameterless
path first and the currency-qualified path second; a failing attempt (HTTP
400, other HTTP/transport error, or non-success API code) only moves on to
the next variant, a success on any variant returns its payload, and only
after both variants fail does the operation return its failure value
together with the last recorded error message (the upstream message
verbatim, except for the HTTP-400 branch which names the attempt). -/
theorem C9_endpoint_fallback (ra : String → VariantResp FuturesAccount)
    (rp : String → VariantResp (List RawPosition)) (cur : String) :
    (∀ d, ra "/api/v1/account-overview" = VariantResp.ok d →
      get_futures_account ra cur = (some d, none)) ∧
    (∀ r d, ra "/api/v1/account-overview" = r → r.isOk = false →
      ra ("/api/v1/account-overview?currency=" ++ cur) = VariantResp.ok d →
      get_futures_account ra cur = (some d, variantErrMsg "without parameters" r)) ∧
    (∀ r1 r2, ra "/api/v1/account-overview" = r1 → r1.isOk = false →
      ra ("/api/v1/account-overview?currency=" ++ cur) = r2 → r2.isOk = false →
      get_futures_account ra cur = (none, variantErrMsg ("with currency=" ++ cur) r2)) ∧
    (∀ ps, rp "/api/v1/positions" = VariantResp.ok ps →
      get_positions rp cur = (some (ps.filter fun p => p.isOpen), none)) ∧
    (∀ r ps, rp "/api/v1/positions" = r → r.isOk = false →
      rp ("/api/v1/positions?currency=" ++ cur) = VariantResp.ok ps →
      get_positions rp cur =
        (some (ps.filter fun p => p.isOpen), variantErrMsg "without parameters" r)) ∧
    (∀ r1 r2, rp "/api/v1/positions" = r1 → r1.isOk = false →
      rp ("/api/v1/positions?currency=" ++ cur) = r2 → r2.isOk = false →
      get_positions rp cur = (none, variantErrMsg ("with currency=" ++ cur) r2)) := by
  refine ⟨?_, ?_, ?_, ?_, ?_, ?_⟩
  · intro d h1
    unfold get_futures_account account_attempts
    rw [try_attempts_cons_ok ra _ _ _ _ _ h1]
  · intro r d h1 k1 h2
    unfold get_futures_account account_attempts
    rw [try_attempts_cons_fail ra _ _ _ _ _ h1 k1, try_attempts_cons_ok ra _ _ _ _ _ h2]
  · intro r1 r2 h1 k1 h2 k2
    unfold get_futures_account account_attempts
    rw [try_attempts_cons_fail ra _ _ _ _ _ h1 k1,
      try_attempts_cons_fail ra _ _ _ _ _ h2 k2, try_attempts_nil]
  · intro ps h1
    unfold get_positions position_attempts
    rw [try_attempts_cons_ok rp _ _ _ _ _ h1]
  · intro r ps h1 k1 h2
    unfold get_positions position_attempts
    rw [try_attempts_cons_fail rp _ _ _ _ _ h1 k1, try_attempts_cons_ok rp _ _ _ _ _ h2]
  · intro r1 r2 h1 k1 h2 k2
    unfold get_positions position_attempts
    rw [try_attempts_cons_fail rp _ _ _ _ _ h1 k1,
      try_attempts_cons_fail rp _ _ _ _ _ h2 k2, try_attempts_nil]

/-- C9 witness: with both account variants failing with API errors, the
account read fails carrying the second (last) message verbatim; with the
positions variants failing with a 400 then an API error, the positions read
fails carrying the second message verbatim. -/
theorem C9_witness :
    get_futures_account raFail "XBT" = (none, some "account err two") ∧
    get_positions rpFail "XBT" = (none, some "positions err two") := by
  have ha := (C9_endpoint_fallback raFail rpFail "XBT").2.2.1
    (VariantResp.apiError "account err one") (VariantResp.apiError "account err two")
    (by decide) rfl (by decide) rfl
  have hp := (C9_endpoint_fallback raFail rpFail "XBT").2.2.2.2.2
    VariantResp.http400 (VariantResp.apiError "positions err two")
    (by decide) rfl (by decide) rfl
  exact ⟨ha, hp⟩

end TradingBot
